import Mathlib

/-!
Verification of the english-teacher-bot credit ledger and AI request pipeline.

The definitions below are a shallow embedding of the Python sources:
  * `src/app/services/balance_service.py` (ledger: `ensure_initial_bonus`,
    `credit`, `debit`),
  * `src/app/database.py` (`get_conversation_history`),
  * `src/app/handlers.py` (context assembly in `process_ai_message`,
    `detect_language`),
  * `src/app/services/openai_service.py` (`count_tokens`, the token budget
    pre-flight of `generate_response`, its error classification, and
    `_tool_detect_language`).

The per-user database state is modelled explicitly: a `UserState` carries the
user's identity columns, the cached `balance`, and the insertion-ordered list of
that user's `Transaction` rows (the `session.add` calls of the service append to
it).  Python `int` is modelled as `Int`; exceptions (`ValueError`) as `Except`.
-/

namespace EnglishTeacherBot

/-! ### Ledger data model

`Transaction` mirrors the columns that `balance_service.py` writes:
`Transaction(user_id=..., telegram_id=..., amount=..., reason=...,
description=...)`.  The `Transaction` ORM model itself is not present in the
`src/app/database.py` snapshot (its tests in `src/tests/test_handlers.py` and
its caller `balance_service.py` reference it), so the row type is taken from
those call sites and from the spec's data model (§3). -/

structure Transaction where
  user_id : Int
  telegram_id : Int
  amount : Int
  reason : String
  description : Option String
deriving Repr, DecidableEq

/-- The per-user slice of database state seen by `balance_service.py`: the
`User` row's identity columns and cached `balance`, plus the user's
`Transaction` rows in insertion order. -/
structure UserState where
  id : Int
  telegram_id : Int
  balance : Int
  transactions : List Transaction
deriving Repr, DecidableEq

/-- `Transaction(user_id=user.id, telegram_id=user.telegram_id, amount=...,
reason=..., description=...)` as built by every ledger operation. -/
def mkTransaction (u : UserState) (amount : Int) (reason : String)
    (description : Option String) : Transaction :=
  ⟨u.id, u.telegram_id, amount, reason, description⟩

/-- `balance_service.ensure_initial_bonus`: if the user has no transactions,
set `balance` to 100 and append a `welcome_bonus` transaction; otherwise do
nothing. -/
def ensure_initial_bonus (u : UserState) : UserState :=
  if u.transactions.isEmpty then
    { u with balance := 100,
             transactions := u.transactions ++
               [mkTransaction u 100 "welcome_bonus" (some "Initial bonus for new user")] }
  else u

/-- `balance_service.credit`: raise `ValueError` on `amount <= 0`, otherwise
increase the balance and append a positive transaction. -/
def credit (u : UserState) (amount : Int) (reason : String)
    (description : Option String) : Except String UserState :=
  if amount ≤ 0 then .error "Credit amount must be positive"
  else .ok { u with balance := u.balance + amount,
                    transactions := u.transactions ++
                      [mkTransaction u amount reason description] }

/-- `balance_service.debit`: raise `ValueError` on `amount <= 0`; return
`False` with no mutation when `balance < amount`; otherwise decrease the
balance, append a negative transaction and return `True`. -/
def debit (u : UserState) (amount : Int) (reason : String)
    (description : Option String) : Except String (Bool × UserState) :=
  if amount ≤ 0 then .error "Debit amount must be positive"
  else if u.balance < amount then .ok (false, u)
  else .ok (true,
    { u with balance := u.balance - amount,
             transactions := u.transactions ++
               [mkTransaction u (-amount) reason description] })

/-- One ledger operation of `balance_service.py`. -/
inductive LedgerOp where
  | ensureInit : LedgerOp
  | creditOp (amount : Int) (reason : String) (description : Option String) : LedgerOp
  | debitOp (amount : Int) (reason : String) (description : Option String) : LedgerOp

/-- Run one ledger operation.  A raised `ValueError` leaves the session state
untouched (the Python functions raise before any mutation). -/
def applyOp (u : UserState) : LedgerOp → UserState
  | .ensureInit => ensure_initial_bonus u
  | .creditOp a r d => match credit u a r d with
    | .ok u2 => u2
    | .error _ => u
  | .debitOp a r d => match debit u a r d with
    | .ok p => p.2
    | .error _ => u

/-- Run a sequence of ledger operations in order. -/
def runOps (u : UserState) (ops : List LedgerOp) : UserState :=
  ops.foldl applyOp u

/-- Sum of `Transaction.amount` over the user's transaction rows. -/
def transactionSum (u : UserState) : Int :=
  (u.transactions.map Transaction.amount).sum

/-- A freshly created `User` row: balance 0 and no transactions (spec §3:
created on first interaction with balance 0). -/
def freshUser (id telegram_id : Int) : UserState :=
  ⟨id, telegram_id, 0, []⟩

/-- The ledger invariant `balance == sum(transaction.amount)`. -/
def ledgerInv (u : UserState) : Prop :=
  transactionSum u = u.balance

theorem transactionSum_append (u : UserState) (b : Int) (l : List Transaction)
    (t : Transaction) (h : u.transactions = l) :
    transactionSum { u with balance := b, transactions := l ++ [t] } =
      transactionSum u + t.amount := by
  simp [transactionSum, h]

theorem applyOp_preserves_inv (u : UserState) (op : LedgerOp)
    (h : ledgerInv u) : ledgerInv (applyOp u op) := by
  cases op with
  | ensureInit =>
    unfold applyOp ensure_initial_bonus
    by_cases he : u.transactions.isEmpty
    · simp only [he, if_true]
      unfold ledgerInv transactionSum at *
      simp [List.isEmpty_iff.mp he, mkTransaction]
    · simpa [he] using h
  | creditOp a r d =>
    unfold applyOp credit
    by_cases ha : a ≤ 0
    · simpa [ha] using h
    · simp only [ha, if_false]
      unfold ledgerInv transactionSum at *
      simp [mkTransaction]
      omega
  | debitOp a r d =>
    unfold applyOp debit
    by_cases ha : a ≤ 0
    · simpa [ha] using h
    · by_cases hb : u.balance < a
      · simpa [ha, hb] using h
      · simp only [ha, hb, if_false]
        unfold ledgerInv transactionSum at *
        simp [mkTransaction]
        omega

theorem runOps_preserves_inv (ops : List LedgerOp) (u : UserState)
    (h : ledgerInv u) : ledgerInv (runOps u ops) := by
  induction ops generalizing u with
  | nil => simpa [runOps] using h
  | cons op rest ih =>
    have h1 : ledgerInv (applyOp u op) := applyOp_preserves_inv u op h
    simpa [runOps] using ih (applyOp u op) h1

/-- C3: for every account and every finite sequence of ledger operations
(`ensure_initial_bonus`, `credit`, `debit`) starting from a fresh account, the
account's balance equals the sum of the amounts of its `Transaction` rows after
each operation (every prefix of the sequence is itself a sequence, so the
statement quantifies over all of them). -/
theorem ledger_balance_eq_transaction_sum (id telegram_id : Int)
    (ops : List LedgerOp) :
    transactionSum (runOps (freshUser id telegram_id) ops) =
      (runOps (freshUser id telegram_id) ops).balance :=
  runOps_preserves_inv ops (freshUser id telegram_id)
    (by simp [ledgerInv, transactionSum, freshUser])

/-- C4: `debit` fails with the `InvalidAmount` error on `amount ≤ 0`; on
insufficient funds it mutates nothing and returns failure; otherwise it
decreases the balance by `amount`, appends exactly one transaction of amount
`-amount`, and returns success; it never drives a non-negative balance below
zero. -/
theorem debit_spec (u : UserState) (amount : Int) (reason : String)
    (descr : Option String) :
    (amount ≤ 0 → debit u amount reason descr = .error "Debit amount must be positive") ∧
    (0 < amount → u.balance < amount → debit u amount reason descr = .ok (false, u)) ∧
    (0 < amount → amount ≤ u.balance →
      debit u amount reason descr = .ok (true,
        { u with balance := u.balance - amount,
                 transactions := u.transactions ++
                   [mkTransaction u (-amount) reason descr] })) ∧
    (0 ≤ u.balance → ∀ ok u2, debit u amount reason descr = .ok (ok, u2) →
      0 ≤ u2.balance) := by
  refine ⟨fun h => by simp [debit, h], fun h1 h2 => ?_, fun h1 h2 => ?_, fun h0 ok u2 h => ?_⟩
  · have ha : ¬ amount ≤ 0 := not_le.mpr h1
    simp [debit, ha, h2]
  · have ha : ¬ amount ≤ 0 := not_le.mpr h1
    have hlt : ¬ u.balance < amount := not_lt.mpr h2
    simp [debit, ha, hlt]
  · by_cases ha : amount ≤ 0
    · simp [debit, ha] at h
    · by_cases hb : u.balance < amount
      · simp [debit, ha, hb] at h
        simp [← h.2, h0]
      · simp [debit, ha, hb] at h
        have := h.2
        simp [← this]
        omega

theorem debit_spec_witness :
    debit ⟨1, 7, 5, []⟩ 2 "usage_debit" none =
      .ok (true, ⟨1, 7, 3, [⟨1, 7, -2, "usage_debit", none⟩]⟩) ∧
    debit ⟨1, 7, 0, []⟩ 1 "usage_debit" none = .ok (false, ⟨1, 7, 0, []⟩) ∧
    debit ⟨1, 7, 5, []⟩ 0 "usage_debit" none = .error "Debit amount must be positive" := by
  refine ⟨?_, ?_, ?_⟩
  · exact (debit_spec ⟨1, 7, 5, []⟩ 2 "usage_debit" none).2.2.1 (by decide) (by decide)
  · exact (debit_spec ⟨1, 7, 0, []⟩ 1 "usage_debit" none).2.1 (by decide) (by decide)
  · exact (debit_spec ⟨1, 7, 5, []⟩ 0 "usage_debit" none).1 (by decide)

/-- C5: `ensure_initial_bonus` is idempotent: on a fresh account (no
transaction rows) two consecutive calls leave exactly one `welcome_bonus`
transaction of amount 100 and balance 100; on an account that already has a
transaction row it performs no mutation. -/
theorem ensure_initial_bonus_idempotent (u : UserState) :
    (u.transactions = [] →
      (ensure_initial_bonus (ensure_initial_bonus u)).balance = 100 ∧
      (ensure_initial_bonus (ensure_initial_bonus u)).transactions =
        [mkTransaction u 100 "welcome_bonus" (some "Initial bonus for new user")] ∧
      ((ensure_initial_bonus (ensure_initial_bonus u)).transactions.filter
          (fun t => t.reason == "welcome_bonus")).length = 1) ∧
    (u.transactions ≠ [] → ensure_initial_bonus u = u) := by
  constructor
  · intro h
    have h1 : ensure_initial_bonus u =
        { u with balance := 100,
                 transactions :=
                   [mkTransaction u 100 "welcome_bonus" (some "Initial bonus for new user")] } := by
      simp [ensure_initial_bonus, h]
    have h2 : ensure_initial_bonus (ensure_initial_bonus u) = ensure_initial_bonus u := by
      rw [h1]
      simp [ensure_initial_bonus]
    rw [h2, h1]
    simp [mkTransaction]
  · intro h
    simp [ensure_initial_bonus, h]

theorem ensure_initial_bonus_idempotent_witness :
    (ensure_initial_bonus (ensure_initial_bonus ⟨1, 7, 0, []⟩)).balance = 100 ∧
    (ensure_initial_bonus ⟨1, 7, 100, [⟨1, 7, 100, "welcome_bonus", none⟩]⟩) =
      ⟨1, 7, 100, [⟨1, 7, 100, "welcome_bonus", none⟩]⟩ := by
  constructor
  · exact ((ensure_initial_bonus_idempotent ⟨1, 7, 0, []⟩).1 rfl).1
  · exact (ensure_initial_bonus_idempotent ⟨1, 7, 100, [⟨1, 7, 100, "welcome_bonus", none⟩]⟩).2
      (by decide)

/-! ### Context assembler

`src/app/database.py::get_conversation_history` selects the user's
`Conversation` rows ordered by `created_at` descending with a `LIMIT`, and
`src/app/handlers.py::process_ai_message` (lines 208-219) re-emits the selected
rows oldest-to-newest as `(user, assistant)` message pairs. -/

/-- The fields of a `Conversation` row read by the context assembler. -/
structure Conversation where
  user_message : String
  ai_response : String
deriving Repr, DecidableEq

/-- `database.get_conversation_history`: the per-user store is the
insertion-ordered list of `Conversation` rows (`created_at` increases with
insertion), so `ORDER BY created_at DESC` is `List.reverse`, and `LIMIT` is
`List.take`. -/
def get_conversation_history (convos : List Conversation) (limit : Nat) :
    List Conversation :=
  (convos.reverse).take limit

/-- The `ChatMessage` dicts built in `handlers.process_ai_message` (role,
content, tool_call_id). -/
structure ChatMessage where
  role : String
  content : String
  tool_call_id : Option String
deriving Repr, DecidableEq

/-- The two messages appended for one past conversation turn:
`(user, c.user_message)` then `(assistant, c.ai_response)`. -/
def context_pair (c : Conversation) : List ChatMessage :=
  [⟨"user", c.user_message, none⟩, ⟨"assistant", c.ai_response, none⟩]

/-- `handlers.process_ai_message` lines 208-219: fetch the most recent
`max_turns` rows, then `for c in reversed(recent)` append the user/assistant
pair of each turn. -/
def build_context (convos : List Conversation) (max_turns : Nat) :
    List ChatMessage :=
  ((get_conversation_history convos max_turns).reverse).flatMap context_pair

/-- C6: context assembly selects the `max_turns` most recent turns (the last
`max_turns` rows in insertion order) and emits them oldest-to-newest as
alternating user/assistant pairs; it is empty when `max_turns = 0` or there is
no history. -/
theorem build_context_spec (convos : List Conversation) (max_turns : Nat) :
    build_context convos max_turns =
      (convos.drop (convos.length - max_turns)).flatMap context_pair ∧
    build_context convos 0 = [] ∧
    build_context [] max_turns = [] := by
  refine ⟨?_, ?_, ?_⟩
  · have h : (convos.reverse.take max_turns).reverse = convos.rtake max_turns :=
      (List.rtake_eq_reverse_take_reverse convos max_turns).symm
    simp [build_context, get_conversation_history, h, List.rtake]
  · simp [build_context, get_conversation_history]
  · simp [build_context, get_conversation_history]

/-- The concrete instance of the spec's ordering example: turns inserted in
order T1, T2, T3 with `max_turns = 2` yield
`[user:T2, assistant:T2, user:T3, assistant:T3]`. -/
theorem build_context_example :
    build_context [⟨"u1", "a1"⟩, ⟨"u2", "a2"⟩, ⟨"u3", "a3"⟩] 2 =
      [⟨"user", "u2", none⟩, ⟨"assistant", "a2", none⟩,
       ⟨"user", "u3", none⟩, ⟨"assistant", "a3", none⟩] := by
  decide

/-! ### Token budgeter (src/app/services/openai_service.py)

`count_tokens` consults `tiktoken`, an external library, modelled as an
environment: `encoding_for_model` either finds an encoder for the model,
raises `KeyError` (unknown model), or raises some other exception; the
`cl100k_base` fallback encoder always exists.  Encoders are total functions
`String → Nat` (number of tokens of the encoded text). -/

/-- The outcome of `tiktoken.encoding_for_model(model)`. -/
inductive TokenLookup where
  | found (encode : String → Nat) : TokenLookup
  | keyError : TokenLookup
  | otherError : TokenLookup

/-- The `tiktoken` facts `count_tokens` depends on. -/
structure TokenizerEnv where
  encoding_for_model : String → TokenLookup
  cl100k_base : String → Nat

/-- `OpenAIService.count_tokens` (lines 217-228): use the model's encoder when
found; on `KeyError` fall back to the `cl100k_base` encoding; on any other
exception fall back to `len(text) // 4`. -/
def count_tokens (env : TokenizerEnv) (text model : String) : Nat :=
  match env.encoding_for_model model with
  | .found encode => encode text
  | .keyError => env.cl100k_base text
  | .otherError => text.length / 4

/-- The pre-flight budget errors raised by `generate_response` before any
provider call (`ValueError` messages in the source). -/
inductive BudgetError where
  | inputTooLong (input_tokens limit : Nat) : BudgetError
  | noRoomForResponse : BudgetError
deriving Repr, DecidableEq

/-- The observable outcome of the pre-flight stage of `generate_response`:
how many provider calls were issued so far and either a budget error or the
computed `max_response_tokens_budget`. -/
structure BudgetOutcome where
  provider_calls : Nat
  result : Except BudgetError Int

/-- `OpenAIService.generate_response` lines 88-106 followed by the first
provider call: flatten the message contents with a blank line between them,
count input tokens, reject with `InputTooLong` when they exceed
`settings.max_tokens_per_request`, otherwise budget
`min(limit - input_tokens - 100, max_resp_tokens)` and reject with
`NoRoomForResponse` below 50; both rejections are raised before the provider
is called. -/
def generate_response_budget (env : TokenizerEnv) (messages : List String)
    (model : String) (max_tokens_per_request : Nat) (max_resp_tokens : Int) :
    BudgetOutcome :=
  let flattened_input := String.intercalate "\n\n" messages
  let input_tokens := count_tokens env flattened_input model
  if input_tokens > max_tokens_per_request then
    ⟨0, .error (.inputTooLong input_tokens max_tokens_per_request)⟩
  else
    let budget : Int :=
      min ((max_tokens_per_request : Int) - (input_tokens : Int) - 100) max_resp_tokens
    if budget < 50 then ⟨0, .error .noRoomForResponse⟩
    else ⟨1, .ok budget⟩

/-- C7: with `input_tokens` the token count of the flattened messages, the
pre-flight fails with `InputTooLong` and zero provider calls when
`input_tokens` exceeds the hard limit; otherwise the budget is
`min(limit - input_tokens - 100, desired)`, and when that value is below 50 it
fails with `NoRoomForResponse`, again with zero provider calls. -/
theorem generate_response_budget_spec (env : TokenizerEnv)
    (messages : List String) (model : String) (limit : Nat) (desired : Int) :
    (count_tokens env (String.intercalate "\n\n" messages) model > limit →
      generate_response_budget env messages model limit desired =
        ⟨0, .error (.inputTooLong
          (count_tokens env (String.intercalate "\n\n" messages) model) limit)⟩) ∧
    (count_tokens env (String.intercalate "\n\n" messages) model ≤ limit →
      min ((limit : Int) -
          (count_tokens env (String.intercalate "\n\n" messages) model : Int) - 100)
          desired < 50 →
      generate_response_budget env messages model limit desired =
        ⟨0, .error .noRoomForResponse⟩) ∧
    (count_tokens env (String.intercalate "\n\n" messages) model ≤ limit →
      50 ≤ min ((limit : Int) -
          (count_tokens env (String.intercalate "\n\n" messages) model : Int) - 100)
          desired →
      generate_response_budget env messages model limit desired =
        ⟨1, .ok (min ((limit : Int) -
          (count_tokens env (String.intercalate "\n\n" messages) model : Int) - 100)
          desired)⟩) := by
  refine ⟨fun h => ?_, fun h1 h2 => ?_, fun h1 h2 => ?_⟩
  · simp [generate_response_budget, h]
  · have h3 : ¬ count_tokens env (String.intercalate "\n\n" messages) model > limit :=
      not_lt.mpr h1
    simp [generate_response_budget, h3, h2]
  · have h3 : ¬ count_tokens env (String.intercalate "\n\n" messages) model > limit :=
      not_lt.mpr h1
    have h4 : ¬ min ((limit : Int) -
        (count_tokens env (String.intercalate "\n\n" messages) model : Int) - 100)
        desired < 50 := not_lt.mpr h2
    simp [generate_response_budget, h3] at h4 ⊢
    simp [h4]

/-- A concrete tokenizer environment for witnesses: every model lookup raises
`KeyError` and the `cl100k_base` fallback encoder is modelled at the inputs it
is applied to in this file (a single ASCII letter is exactly one `cl100k_base`
token, and short ASCII words encode to at least one token). -/
def unknown_model_env : TokenizerEnv :=
  ⟨fun _ => .keyError, fun s => s.length⟩

theorem generate_response_budget_spec_witness :
    generate_response_budget unknown_model_env ["hello"] "gpt-x" 3 1200 =
      ⟨0, .error (.inputTooLong 5 3)⟩ ∧
    generate_response_budget unknown_model_env ["hello"] "gpt-x" 140 1200 =
      ⟨0, .error .noRoomForResponse⟩ ∧
    generate_response_budget unknown_model_env ["hello"] "gpt-x" 4000 1200 =
      ⟨1, .ok 1200⟩ := by
  refine ⟨?_, ?_, ?_⟩
  · exact (generate_response_budget_spec unknown_model_env ["hello"] "gpt-x" 3 1200).1
      (by decide)
  · exact (generate_response_budget_spec unknown_model_env ["hello"] "gpt-x" 140 1200).2.1
      (by decide) (by decide)
  · have h := (generate_response_budget_spec unknown_model_env ["hello"] "gpt-x" 4000 1200).2.2
      (by decide) (by decide)
    simpa using h

/-- C8 counterexample: for a model whose tokenizer lookup raises `KeyError`,
`count_tokens` returns the `cl100k_base` token count — for the one-letter text
`"a"` that is 1 token — and not `len(text) // 4 = 0`. -/
theorem count_tokens_unknown_model_not_len_div_four :
    count_tokens unknown_model_env "a" "mystery-model" ≠ "a".length / 4 := by
  decide

/-- C8 (amended): `count_tokens` is a deterministic non-negative integer
estimate; for a model whose tokenizer lookup raises `KeyError` it falls back
to the `cl100k_base` encoding, and the `len(text) // 4` heuristic is returned
only when the tokenizer raises an unexpected (non-`KeyError`) error. -/
theorem count_tokens_spec (env : TokenizerEnv) (text model : String) :
    (0 : Int) ≤ (count_tokens env text model : Int) ∧
    (env.encoding_for_model model = .keyError →
      count_tokens env text model = env.cl100k_base text) ∧
    (env.encoding_for_model model = .otherError →
      count_tokens env text model = text.length / 4) ∧
    (∀ encode, env.encoding_for_model model = .found encode →
      count_tokens env text model = encode text) := by
  refine ⟨Int.natCast_nonneg _, fun h => ?_, fun h => ?_, fun encode h => ?_⟩
  · simp [count_tokens, h]
  · simp [count_tokens, h]
  · simp [count_tokens, h]

theorem count_tokens_spec_witness :
    count_tokens unknown_model_env "a" "mystery-model" = 1 :=
  (count_tokens_spec unknown_model_env "a" "mystery-model").2.1 rfl

/-! ### Completion orchestrator error classification

`generate_response` wraps the provider call in
`except openai.RateLimitError / except openai.APIError / except Exception`,
in that order.  In the `openai` library `RateLimitError`,
`AuthenticationError`, `PermissionDeniedError`, `BadRequestError` and
`InternalServerError` are all subclasses of `APIError`; the fault model below
records which concrete exception the provider raised. -/

/-- The provider-side faults the `openai` client can raise (plus `unexpected`
for any exception outside the `openai.APIError` hierarchy). -/
inductive ProviderFault where
  | rateLimit : ProviderFault
  | authentication : ProviderFault
  | permissionDenied : ProviderFault
  | badRequest : ProviderFault
  | serverError : ProviderFault
  | unexpected : ProviderFault
deriving Repr, DecidableEq

/-- `isinstance(e, openai.RateLimitError)`. -/
def rate_limit_error (f : ProviderFault) : Bool :=
  match f with
  | .rateLimit => true
  | _ => false

/-- `isinstance(e, openai.APIError)`: every fault of the `openai` exception
hierarchy, i.e. everything except a non-`openai` exception. -/
def api_error (f : ProviderFault) : Bool :=
  match f with
  | .unexpected => false
  | _ => true

/-- The three user-facing outcomes produced by the `except` clauses of
`generate_response` (lines 203-215). -/
inductive ErrorKind where
  | overloaded : ErrorKind
  | providerUnavailable : ErrorKind
  | internalError : ErrorKind
deriving Repr, DecidableEq

/-- The classification performed by the ordered `except` clauses:
`RateLimitError` first, then any other `APIError`, then any other
exception. -/
def classify_provider_fault (f : ProviderFault) : ErrorKind :=
  if rate_limit_error f then .overloaded
  else if api_error f then .providerUnavailable
  else .internalError

/-- The user-safe message raised (as `ValueError`) for each outcome. -/
def user_error_message : ErrorKind → String
  | .overloaded => "AI service is currently overloaded. Please try again in a few minutes."
  | .providerUnavailable => "AI service is temporarily unavailable. Please try again later."
  | .internalError => "An unexpected error occurred. Please try again."

/-- The internal diagnostic logged for the fault, carrying the exception
detail (`logger.error` calls in the same `except` clauses). -/
def diagnostic_log (f : ProviderFault) (detail : String) : String :=
  if rate_limit_error f then "OpenAI rate limit exceeded: " ++ detail
  else if api_error f then "OpenAI API error: " ++ detail
  else "Unexpected error in OpenAI service: " ++ detail

theorem string_data_append (s t : String) : (s ++ t).data = s.data ++ t.data := by
  cases s
  cases t
  rfl

theorem string_ne_append_of_head_ne (a b t : String) (c₁ c₂ : Char)
    (h₁ : a.data.head? = some c₁) (h₂ : b.data.head? = some c₂)
    (hne : c₁ ≠ c₂) : a ≠ b ++ t := by
  intro e
  apply hne
  have hd : a.data = b.data ++ t.data := by
    rw [e, string_data_append]
  cases hb : b.data with
  | nil => rw [hb] at h₂; simp at h₂
  | cons x xs =>
    rw [hb] at h₂
    rw [hd, hb, List.cons_append] at h₁
    simp at h₁ h₂
    exact h₁.symm.trans h₂

/-- C9 counterexample: an authentication fault is caught by the
`except openai.APIError` clause, so it is classified as `ProviderUnavailable`
(the same outcome and user message as a provider-side fault), not as a
distinct `ConfigurationError` — no such fourth outcome exists in the code. -/
theorem classify_authentication_not_distinct :
    classify_provider_fault .authentication = .providerUnavailable ∧
    classify_provider_fault .authentication = classify_provider_fault .serverError ∧
    user_error_message (classify_provider_fault .authentication) =
      user_error_message .providerUnavailable := by
  refine ⟨rfl, rfl, rfl⟩

/-- C9 (amended): the orchestrator classifies every provider fault into
exactly one of three kinds — rate-limiting faults become `Overloaded`; every
other fault of the `openai.APIError` hierarchy, including authentication and
permission faults and malformed requests, becomes `ProviderUnavailable`; any
other unexpected fault becomes `InternalError` — and each classified error
carries a user-safe message distinct from the internal diagnostic. -/
theorem provider_fault_classification (f : ProviderFault) (detail : String) :
    classify_provider_fault .rateLimit = .overloaded ∧
    classify_provider_fault .authentication = .providerUnavailable ∧
    classify_provider_fault .permissionDenied = .providerUnavailable ∧
    classify_provider_fault .badRequest = .providerUnavailable ∧
    classify_provider_fault .serverError = .providerUnavailable ∧
    classify_provider_fault .unexpected = .internalError ∧
    user_error_message (classify_provider_fault f) ≠ diagnostic_log f detail := by
  refine ⟨rfl, rfl, rfl, rfl, rfl, rfl, ?_⟩
  cases f with
  | rateLimit =>
    exact string_ne_append_of_head_ne _ _ detail 'A' 'O' (by decide) (by decide) (by decide)
  | authentication =>
    exact string_ne_append_of_head_ne _ _ detail 'A' 'O' (by decide) (by decide) (by decide)
  | permissionDenied =>
    exact string_ne_append_of_head_ne _ _ detail 'A' 'O' (by decide) (by decide) (by decide)
  | badRequest =>
    exact string_ne_append_of_head_ne _ _ detail 'A' 'O' (by decide) (by decide) (by decide)
  | serverError =>
    exact string_ne_append_of_head_ne _ _ detail 'A' 'O' (by decide) (by decide) (by decide)
  | unexpected =>
    exact string_ne_append_of_head_ne _ _ detail 'A' 'U' (by decide) (by decide) (by decide)

theorem provider_fault_classification_witness :
    user_error_message (classify_provider_fault .rateLimit) ≠
      diagnostic_log .rateLimit "status 429" :=
  (provider_fault_classification .rateLimit "status 429").2.2.2.2.2.2

/-! ### Language detection heuristics

`handlers.detect_language` and `OpenAIService._tool_detect_language` are two
separate copies of the same character-pattern heuristic; each is translated
below from its own source.  Python string comparisons on one-character strings
compare code points, so character range checks use `Char.toNat`. -/

/-- Python `str.lower` as invoked by both detectors.  Both call it on the same
input, so the equivalence theorem below does not depend on the precision of
this model. -/
def py_lower (s : String) : String :=
  s.map Char.toLower

/-- `handlers.detect_language` (src/app/handlers.py lines 67-97). -/
def detect_language (text : String) : Option String :=
  if text.data.any (fun char => 0x0400 ≤ char.toNat && char.toNat ≤ 0x04ff) then some "ru"
  else if text.data.any (fun char => 0x4e00 ≤ char.toNat && char.toNat ≤ 0x9fff) then some "zh"
  else if text.data.any (fun char => 0x0600 ≤ char.toNat && char.toNat ≤ 0x06ff) then some "ar"
  else if (py_lower text).data.any (fun char => "ñáéíóúü¿¡".data.contains char) then some "es"
  else if (py_lower text).data.any (fun char => "àâäéèêëïîôöùûüÿç".data.contains char) then
    some "fr"
  else if (py_lower text).data.any (fun char => "äöüß".data.contains char) then some "de"
  else if text.data.all (fun char => char.toNat < 256) then some "en"
  else none

/-- `OpenAIService._tool_detect_language` (src/app/services/openai_service.py
lines 242-259). -/
def tool_detect_language (text : String) : Option String :=
  if text.data.any (fun c => 0x0400 ≤ c.toNat && c.toNat ≤ 0x04ff) then some "ru"
  else if text.data.any (fun c => 0x4e00 ≤ c.toNat && c.toNat ≤ 0x9fff) then some "zh"
  else if text.data.any (fun c => 0x0600 ≤ c.toNat && c.toNat ≤ 0x06ff) then some "ar"
  else if (py_lower text).data.any (fun ch => "ñáéíóúü¿¡".data.contains ch) then some "es"
  else if (py_lower text).data.any (fun ch => "àâäéèêëïîôöùûüÿç".data.contains ch) then
    some "fr"
  else if (py_lower text).data.any (fun ch => "äöüß".data.contains ch) then some "de"
  else if text.data.all (fun ch => ch.toNat < 256) then some "en"
  else none

/-- C10: the standalone detector in the handlers module and the tool-call
detector inside the OpenAI service are extensionally equal — the two sources
are line-for-line the same heuristic (same ranges, same diacritic sets, same
order of checks), so the translated functions agree on every input. -/
theorem detect_language_eq_tool_detect_language (text : String) :
    detect_language text = tool_detect_language text := rfl

/-! ### Request coordinator (spec-modelled)

The metering request handler of this repository (the `text_handler` that
`src/tests/test_handlers.py` imports and exercises) is not present under
`src/app`: the `process_ai_message` shipped in `src/app/handlers.py` never
touches the ledger, and `balance_service.py` has no caller in the snapshot.
The coordinator is therefore modelled from the spec (§4.1, §4.5) on top of the
ledger operations translated from `balance_service.py` above. -/

/-- Modelled from the spec: `refund(account, amount, linked_reason)` is a
convenience wrapper equal to `credit` with `reason=refund` (spec §4.1); the
Request Coordinator that calls it is absent from `src/app`. -/
def refund (u : UserState) (amount : Int) (linked_reason : String) :
    Except String UserState :=
  credit u amount "refund" (some linked_reason)

/-- Outcome of one coordinated request, as seen by the user. -/
inductive RequestOutcome where
  | insufficientFunds : RequestOutcome
  | providerFailed (kind : ErrorKind) : RequestOutcome
  | success (text : String) (tokens : Int) : RequestOutcome
  | internalFailure : RequestOutcome
deriving Repr, DecidableEq

/-- Result of one coordinated request: user-visible outcome, final ledger
state, and how many provider calls were issued. -/
structure RequestResult where
  outcome : RequestOutcome
  state : UserState
  provider_calls : Nat
deriving Repr, DecidableEq

/-- Modelled from the spec: the Request Coordinator pipeline of §4.5, which is
not under `src/app` (only its tests are).  Step 1 debits 1 credit through the
ledger's `debit`; insufficient funds terminate the request with no provider
call and no state change.  Otherwise the provider is called once; a provider
fault is classified and compensated by a `refund` of the debited amount, while
a successful response keeps the charge. -/
def process_request (u : UserState)
    (provider : Except ProviderFault (String × Int)) : RequestResult :=
  match debit u 1 "usage_debit" (some "AI request") with
  | .error _ => ⟨.internalFailure, u, 0⟩
  | .ok (false, u1) => ⟨.insufficientFunds, u1, 0⟩
  | .ok (true, u1) =>
    match provider with
    | .ok (text, tokens) => ⟨.success text tokens, u1, 1⟩
    | .error f =>
      match refund u1 1 "AI call failed after debit" with
      | .ok u2 => ⟨.providerFailed (classify_provider_fault f), u2, 1⟩
      | .error _ => ⟨.internalFailure, u1, 1⟩

theorem process_request_debit_ok (u : UserState) (h : 1 ≤ u.balance)
    (provider : Except ProviderFault (String × Int)) :
    process_request u provider =
      match provider with
      | .ok (text, tokens) => ⟨.success text tokens,
          { u with balance := u.balance - 1,
                   transactions := u.transactions ++
                     [mkTransaction u (-1) "usage_debit" (some "AI request")] }, 1⟩
      | .error f => ⟨.providerFailed (classify_provider_fault f),
          { u with balance := u.balance - 1 + 1,
                   transactions := (u.transactions ++
                     [mkTransaction u (-1) "usage_debit" (some "AI request")]) ++
                     [mkTransaction
                       { u with balance := u.balance - 1,
                                transactions := u.transactions ++
                                  [mkTransaction u (-1) "usage_debit" (some "AI request")] }
                       1 "refund" (some "AI call failed after debit")] }, 1⟩ := by
  have hlt : ¬ u.balance < 1 := not_lt.mpr h
  cases provider with
  | ok p => simp [process_request, debit, hlt]
  | error f => simp [process_request, debit, hlt, refund, credit]

/-- C1: whenever the ledger debit succeeded and the provider call fails, the
coordinator refunds the debit — a credit with reason `refund` — so the final
balance equals the exact pre-debit balance and the transaction log gains the
usage debit followed by a refund transaction of amount 1. -/
theorem refund_on_provider_failure (u : UserState) (f : ProviderFault)
    (h : 1 ≤ u.balance) :
    (process_request u (.error f)).state.balance = u.balance ∧
    (∃ t, (process_request u (.error f)).state.transactions =
        u.transactions ++
          [mkTransaction u (-1) "usage_debit" (some "AI request"), t] ∧
        t.reason = "refund" ∧ t.amount = 1) ∧
    (process_request u (.error f)).outcome =
      .providerFailed (classify_provider_fault f) := by
  rw [process_request_debit_ok u h (.error f)]
  refine ⟨by simp, ⟨mkTransaction
      { u with balance := u.balance - 1,
               transactions := u.transactions ++
                 [mkTransaction u (-1) "usage_debit" (some "AI request")] }
      1 "refund" (some "AI call failed after debit"), by simp, rfl, rfl⟩, rfl⟩

theorem refund_on_provider_failure_witness :
    (process_request ⟨1, 7, 100, []⟩ (.error .serverError)).state.balance = 100 ∧
    (process_request ⟨1, 7, 100, []⟩ (.error .serverError)).outcome =
      .providerFailed .providerUnavailable := by
  constructor
  · exact (refund_on_provider_failure ⟨1, 7, 100, []⟩ .serverError (by decide)).1
  · exact (refund_on_provider_failure ⟨1, 7, 100, []⟩ .serverError (by decide)).2.2

/-- C2: the coordinator debits 1 credit before any provider call: with
balance 0 the request terminates as `InsufficientFunds` with the ledger state
unchanged (no transaction appended) and zero provider calls; and whenever the
provider was called at all, the debit had succeeded — the pre-call balance was
at least 1 and the usage debit of amount -1 is in the final transaction
log. -/
theorem debit_before_provider_call (u : UserState)
    (provider : Except ProviderFault (String × Int)) :
    (u.balance = 0 → process_request u provider = ⟨.insufficientFunds, u, 0⟩) ∧
    ((process_request u provider).provider_calls = 1 →
      1 ≤ u.balance ∧
      mkTransaction u (-1) "usage_debit" (some "AI request") ∈
        (process_request u provider).state.transactions) := by
  constructor
  · intro h0
    have hlt : u.balance < 1 := by omega
    simp [process_request, debit, hlt]
  · intro hcall
    by_cases h : 1 ≤ u.balance
    · refine ⟨h, ?_⟩
      rw [process_request_debit_ok u h provider]
      cases provider with
      | ok p => simp
      | error f => simp
    · exfalso
      have hlt : u.balance < 1 := by omega
      simp [process_request, debit, hlt] at hcall

theorem debit_before_provider_call_witness :
    process_request ⟨1, 7, 0, []⟩ (.ok ("Hello, how are you?", 42)) =
      ⟨.insufficientFunds, ⟨1, 7, 0, []⟩, 0⟩ :=
  (debit_before_provider_call ⟨1, 7, 0, []⟩ (.ok ("Hello, how are you?", 42))).1 rfl

end EnglishTeacherBot
